import Mathlib

/-!
Verification development for the media duration reconciliation and mixing
pipeline implemented in `src/utils/audio_utils.py`.

The Python functions are shallowly embedded as pure Lean functions.  Each
subprocess invocation of the external transcoder (`ffmpeg`) or inspector
(`ffprobe`) is modelled by passing its outcome in as an explicit argument
(a `Bool` for `subprocess.check_call` success, a `ProbeOutcome` for
`ffprobe` runs), and each command line the code builds is reified as a
`List Arg`.  File-system effects (temp-file creation and removal) are
modelled by explicit state fields: every embedded operation reports the
list of temp artifacts still existing when it returns (`tempLeft`).
Durations and volumes are modelled as exact rationals `ℚ`; Python's
`int()` truncation is `pyInt`.  Path manipulation (`os.path.dirname`,
`os.path.join`, the substring test `in`) is embedded following the
`posixpath` reference semantics used by the source on normalized paths.
-/

/-- A failure of one run of the external inspection command
(`ffprobe`): nonzero exit (`subprocess.CalledProcessError`), empty
output, or output that does not parse as a float (`ValueError`). -/
inductive ProbeFailure
  | nonzeroExit (code : ℤ)
  | emptyOutput
  | unparsable (txt : String)
  deriving DecidableEq

/-- Outcome of one `ffprobe` run against a media file: either the parsed
container duration or a failure. -/
inductive ProbeOutcome
  | ok (d : ℚ)
  | failure (f : ProbeFailure)
  deriving DecidableEq

/-- `get_audio_duration` (src/utils/audio_utils.py lines 11-41): returns
the probed duration; the `except Exception` handler prints and returns
`0.0` for every probe failure.  The return type is a bare number: there
is no error channel. -/
def get_audio_duration : ProbeOutcome → ℚ
  | .ok d => d
  | .failure _ => 0

/-- `get_video_duration` (src/utils/audio_utils.py lines 44-74): same
body as `get_audio_duration`, probing a video file. -/
def get_video_duration : ProbeOutcome → ℚ
  | .ok d => d
  | .failure _ => 0

/-- Python's `int()` applied to an exact numeric value: truncation toward
zero. -/
def pyInt (q : ℚ) : ℤ := if 0 ≤ q then ⌊q⌋ else ⌈q⌉

/-- `os.path.dirname` (posixpath semantics, as used by the source on
forward-slash paths): the part of the path before the final slash,
right-stripped of slashes unless it consists only of slashes; empty when
there is no slash. -/
def dirname (p : String) : String :=
  let rev := p.toList.reverse
  let headRev := rev.dropWhile (fun c => c ≠ '/')
  if headRev = [] then ""
  else if headRev.all (fun c => c = '/') then String.mk headRev.reverse
  else String.mk (headRev.dropWhile (fun c => c = '/')).reverse

/-- `os.path.join a b` (posixpath semantics for the two-argument form the
source uses, where `b` is one of its fixed file-name literals). -/
def pathJoin (a b : String) : String :=
  if b.toList.take 1 = ['/'] then b
  else if a = "" ∨ a.toList.getLast? = some '/' then a ++ b
  else a ++ "/" ++ b

/-- Python's substring test `pat in s`. -/
def strContains (s pat : String) : Bool := decide (pat.toList <:+: s.toList)

/-- One audio filter as the source writes it into an `-af` /
`-filter_complex` value: `adelay=ms|ms`, `apad=whole_dur=<ms>ms`,
`volume=<v>`, or `afade=t=out:st=<st>:d=<d>`. -/
inductive AudioFilter
  | adelay (ms : ℤ)
  | apadWholeDurMs (ms : ℤ)
  | volume (v : ℚ)
  | afadeOut (st d : ℚ)
  deriving DecidableEq

/-- The `-filter_complex` graph of the mixing invocation: a per-stream
filter chain for the music input and for the voice input, followed by
`amix=inputs=2:duration=first`. -/
structure MixGraph where
  musicChain : List AudioFilter
  voiceChain : List AudioFilter
  amixDurationFirst : Bool
  deriving DecidableEq

/-- One argv token of a transcoder command line.  Literal tokens and path
arguments are `lit`; a numeric argument rendered with `str(...)` is
`dur`; the value of `-af` is `af`; the value of `-filter_complex` is
`graph`. -/
inductive Arg
  | lit (s : String)
  | dur (q : ℚ)
  | af (chain : List AudioFilter)
  | graph (g : MixGraph)
  deriving DecidableEq

/-- Duration semantics of a single audio filter, per the transcoder's
documented behavior: `adelay` prepends silence, `apad=whole_dur` pads up
to the given total but never truncates, `volume` and `afade` leave the
duration unchanged. -/
def filterDur : AudioFilter → ℚ → ℚ
  | .adelay ms, d => d + (ms : ℚ) / 1000
  | .apadWholeDurMs t, d => max d ((t : ℚ) / 1000)
  | .volume _, d => d
  | .afadeOut _ _, d => d

/-- Duration of the output of an `-af` chain applied to an input of the
given duration. -/
def chainDur (fs : List AudioFilter) (d : ℚ) : ℚ :=
  fs.foldl (fun a f => filterDur f a) d

/-- Effect of an optional `-t` output duration cap. -/
def capDur : Option ℚ → ℚ → ℚ
  | some t, d => min d t
  | none, d => d

/-- Stream-selection semantics of a transcoder command for audio: the
`-an` flag excludes all audio from the output; without it, stream-copy
invocations carry the source's audio streams into the output
(transcoder interface as documented in the specification, section 6). -/
def outputAudioStreams (cmd : List Arg) (srcAudio : ℕ) : ℕ :=
  if Arg.lit "-an" ∈ cmd then 0 else srcAudio

/-- The concat-and-cap command built by `loop_video_to_duration`
(src/utils/audio_utils.py lines 116-125): note `-c copy` with no `-an`
token. -/
def concatLoopCmd (concatList : String) (target : ℚ) (outputFile : String) : List Arg :=
  [ .lit "ffmpeg", .lit "-f", .lit "concat", .lit "-safe", .lit "0",
    .lit "-i", .lit concatList, .lit "-t", .dur target,
    .lit "-c", .lit "copy", .lit "-y", .lit outputFile]

/-- The trim command built by `prepare_video_for_audio`
(src/utils/audio_utils.py lines 392-399): `-c copy` with no `-an`
token. -/
def trimCmd (videoFile : String) (target : ℚ) (outputFile : String) : List Arg :=
  [ .lit "ffmpeg", .lit "-i", .lit videoFile, .lit "-t", .dur target,
    .lit "-c", .lit "copy", .lit "-y", .lit outputFile]

/-- The `-af` chain built by `pad_audio_with_silence`
(src/utils/audio_utils.py line 176):
`adelay={int(start_delay*1000)}|{...},apad=whole_dur={int(total_duration*1000)}ms`.
There is no volume filter in this chain. -/
def padFilterChain (start_delay total_duration : ℚ) : List AudioFilter :=
  [ .adelay (pyInt (start_delay * 1000)),
    .apadWholeDurMs (pyInt (total_duration * 1000))]

/-- The full padding command (src/utils/audio_utils.py lines 173-179):
no `-t` cap is present. -/
def padCmd (inputAudio : String) (start_delay total_duration : ℚ)
    (outputAudio : String) : List Arg :=
  [ .lit "ffmpeg", .lit "-i", .lit inputAudio, .lit "-af",
    .af (padFilterChain start_delay total_duration), .lit "-y", .lit outputAudio]

/-- The `-af` chain of the music-preparation invocation inside
`mix_voice_and_music` (src/utils/audio_utils.py line 260):
`volume={music_volume},afade=t=out:st={video_duration - 1.5}:d=1.5`. -/
def fadeFilterChainMix (music_volume video_duration : ℚ) : List AudioFilter :=
  [ .volume music_volume, .afadeOut (video_duration - 3/2) (3/2)]

/-- The `-af` chain of the fade invocation in `prepare_background_music`
(src/utils/audio_utils.py line 339): only
`afade=t=out:st={target_duration - 1.5}:d=1.5`; no volume filter. -/
def bgFadeFilterChain (target_duration : ℚ) : List AudioFilter :=
  [ .afadeOut (target_duration - 3/2) (3/2)]

/-- The `-filter_complex` graph of the final mixing invocation
(src/utils/audio_utils.py lines 272-274): `[0:a]volume=1.0[music];
[1:a]volume={voice_volume}[voice]; [music][voice]amix=inputs=2:duration=first`. -/
def mixGraphOf (voice_volume : ℚ) : MixGraph :=
  { musicChain := [.volume 1]
    voiceChain := [.volume voice_volume]
    amixDurationFirst := true }

/-- Observable state of one call of `loop_video_to_duration`. -/
structure LoopRun where
  /-- return value, or the raised exception's description -/
  result : Except String String
  /-- `times_to_loop` (line 104); `none` when the zero-duration guard
  raised before the division was executed -/
  timesToLoop : Option ℤ
  /-- fixed temp path `concat_list.txt` under the output directory (line 109) -/
  concatListPath : String
  /-- the transcoder command built at line 116, when reached -/
  cmd : Option (List Arg)
  /-- transcoder invocations attempted -/
  invocations : ℕ
  /-- temp artifacts still existing when the call returns -/
  tempLeft : List String

/-- `loop_video_to_duration` (src/utils/audio_utils.py lines 77-137).
`videoProbe` is the outcome of the internal `get_video_duration` probe;
`ffmpegOk` is whether the single `subprocess.check_call` at line 127
exits zero.  Control flow of the source: guard `original_duration == 0`
raises (line 100-101) before the division at line 104; the concat list
is written with `times_to_loop` lines; the concat list is removed only
after a successful invocation (lines 129-130), so a nonzero transcoder
exit re-raises (line 137) with the concat list left on disk. -/
def loop_video_to_duration (videoProbe : ProbeOutcome) (target_duration : ℚ)
    (output_file : String) (ffmpegOk : Bool) : LoopRun :=
  let original_duration := get_video_duration videoProbe
  let concat_list := pathJoin (dirname output_file) "concat_list.txt"
  { result :=
      if original_duration = 0 then .error "Could not get video duration"
      else if ffmpegOk then .ok output_file
      else .error "CalledProcessError"
    timesToLoop :=
      if original_duration = 0 then none
      else some (pyInt (target_duration / original_duration) + 1)
    concatListPath := concat_list
    cmd :=
      if original_duration = 0 then none
      else some (concatLoopCmd concat_list target_duration output_file)
    invocations := if original_duration = 0 then 0 else 1
    tempLeft :=
      if original_duration = 0 then []
      else if ffmpegOk then []
      else [concat_list] }

/-- Observable state of one call of `pad_audio_with_silence`. -/
structure PadRun where
  result : Except String String
  cmd : List Arg
  /-- duration of the produced audio per the filter semantics, given the
  true duration of the input voice file -/
  outDur : ℚ

/-- `pad_audio_with_silence` (src/utils/audio_utils.py lines 140-188).
`voiceDur` is the true duration of `input_audio` (the internal probe
result at line 162 is computed but unused by the command).  The command
applies `adelay` then `apad=whole_dur`, with no `-t` cap (`capDur none`). -/
def pad_audio_with_silence (voiceDur : ℚ) (input_audio output_audio : String)
    (start_delay total_duration : ℚ) (ffmpegOk : Bool) : PadRun :=
  { result := if ffmpegOk then .ok output_audio else .error "CalledProcessError"
    cmd := padCmd input_audio start_delay total_duration output_audio
    outDur := capDur none (chainDur (padFilterChain start_delay total_duration) voiceDur) }

/-- Observable state of one call of `mix_voice_and_music`. -/
structure MixRun where
  result : Except String String
  /-- fixed temp path `voice_padded.mp3` (line 222) -/
  paddedVoicePath : String
  /-- fixed temp path `music_prepared.mp3` (line 231) -/
  preparedMusicPath : String
  /-- fixed temp path `music_concat.txt` (line 238) -/
  musicConcatPath : String
  /-- fixed temp path `music_looped.mp3` (line 244) -/
  loopedMusicPath : String
  /-- the `-af` chain of the padding step (via `pad_audio_with_silence`) -/
  padChain : List AudioFilter
  /-- `loops_needed` (line 235), when the looping branch is taken and
  the division there succeeds (nonzero probed music duration) -/
  loopsNeeded : Option ℤ
  /-- the `-af` chain of the music-preparation invocation (line 260) -/
  fadeChain : List AudioFilter
  /-- `-t` cap of the music-preparation invocation (line 261) -/
  fadeCap : Option ℚ
  /-- the `-filter_complex` graph of the mixing invocation (lines 272-274) -/
  mixGraph : MixGraph
  /-- `-t` cap of the mixing invocation (line 275) -/
  mixCap : Option ℚ
  /-- temp artifacts still existing when the call returns -/
  tempLeft : List String
  /-- whether the cleanup at lines 287-288 removed the caller's own
  music file (possible when no looping occurred but the source path
  contains the literal `music_looped.mp3`) -/
  sourceRemoved : Bool

/-- `mix_voice_and_music` (src/utils/audio_utils.py lines 191-295).
`voiceDur`/`musicDur` are the probed durations (lines 218-219);
`padOk`, `loopOk`, `fadeOk`, `mixOk` are the outcomes of the four
`subprocess.check_call` invocations in source order (pad at 223, music
concat at 245, fade at 257, mix at 280).  When the looping branch is
entered with a probed `music_duration` of exactly `0` (as a failed
probe yields), the division at line 235 raises `ZeroDivisionError`
before the concat list is written — after the padding step has already
created `voice_padded.mp3`.  Temp-file lifecycle follows the source
exactly: `music_concat.txt` is removed right after a successful concat
(lines 251-252); `voice_padded.mp3` and `music_prepared.mp3` are
removed only on the all-success path (lines 283-285); the looped music
is removed there only when the `background_music` variable contains
the substring `music_looped.mp3` (lines 287-288); any raised
invocation or the `ZeroDivisionError` propagates out of the `except`
handler (line 295) with no cleanup. -/
def mix_voice_and_music (voiceDur musicDur : ℚ) (background_music output_file : String)
    (video_duration voice_delay voice_volume music_volume : ℚ)
    (padOk loopOk fadeOk mixOk : Bool) : MixRun :=
  let dir0 := dirname output_file
  let dir := if dir0 = "" then "." else dir0
  let padded_voice := pathJoin dir "voice_padded.mp3"
  let prepared_music := pathJoin dir "music_prepared.mp3"
  let music_concat := pathJoin dir "music_concat.txt"
  let looped_music := pathJoin dir "music_looped.mp3"
  { result :=
      if padOk = false then .error "CalledProcessError"
      else if musicDur < video_duration ∧ musicDur = 0 then .error "ZeroDivisionError"
      else if musicDur < video_duration ∧ loopOk = false then .error "CalledProcessError"
      else if fadeOk = false then .error "CalledProcessError"
      else if mixOk = false then .error "CalledProcessError"
      else .ok output_file
    paddedVoicePath := padded_voice
    preparedMusicPath := prepared_music
    musicConcatPath := music_concat
    loopedMusicPath := looped_music
    padChain := padFilterChain voice_delay video_duration
    loopsNeeded :=
      if musicDur < video_duration ∧ musicDur ≠ 0 then
        some (pyInt (video_duration / musicDur) + 1)
      else none
    fadeChain := fadeFilterChainMix music_volume video_duration
    fadeCap := some video_duration
    mixGraph := mixGraphOf voice_volume
    mixCap := some video_duration
    tempLeft :=
      if padOk = false then []
      else if musicDur < video_duration then
        if musicDur = 0 then [padded_voice]
        else if loopOk = false then [padded_voice, music_concat]
        else if fadeOk = false then [padded_voice, looped_music]
        else if mixOk = false then [padded_voice, looped_music, prepared_music]
        else if strContains looped_music "music_looped.mp3" then []
        else [looped_music]
      else
        if fadeOk = false then [padded_voice]
        else if mixOk = false then [padded_voice, prepared_music]
        else []
    sourceRemoved :=
      if padOk = true ∧ ¬ musicDur < video_duration ∧ fadeOk = true ∧ mixOk = true then
        strContains background_music "music_looped.mp3"
      else false }

/-- Observable state of one call of `prepare_background_music`. -/
structure BgRun where
  result : Except String String
  /-- fixed temp path `music_concat.txt` (line 317) -/
  musicConcatPath : String
  /-- fixed temp path `music_temp.mp3` (line 323) -/
  musicTempPath : String
  /-- `loops_needed` (line 315), when the looping branch is taken and
  the division there succeeds (nonzero probed music duration) -/
  loopsNeeded : Option ℤ
  /-- the `-af` chain of the fade invocation (line 339): no volume filter -/
  fadeChain : List AudioFilter
  /-- `-t` cap of the fade invocation (line 340) -/
  fadeCap : Option ℚ
  /-- temp artifacts still existing when the call returns -/
  tempLeft : List String
  /-- whether the cleanup at lines 348-349 removed the caller's own
  music file (possible when no looping occurred but the source path
  contains the literal `music_temp.mp3`) -/
  sourceRemoved : Bool

/-- `prepare_background_music` (src/utils/audio_utils.py lines 298-355).
`musicDur` is the probed duration (line 311); `loopOk` and `fadeOk` are
the outcomes of the two `subprocess.check_call` invocations (concat at
324, fade at 345).  When the looping branch is entered with a probed
duration of exactly `0`, the division at line 315 raises
`ZeroDivisionError` before any temp artifact is created. -/
def prepare_background_music (musicDur : ℚ) (music_file output_file : String)
    (target_duration : ℚ) (loopOk fadeOk : Bool) : BgRun :=
  let dir0 := dirname output_file
  let dir := if dir0 = "" then "." else dir0
  let music_concat := pathJoin dir "music_concat.txt"
  let music_temp := pathJoin dir "music_temp.mp3"
  { result :=
      if musicDur < target_duration ∧ musicDur = 0 then .error "ZeroDivisionError"
      else if musicDur < target_duration ∧ loopOk = false then .error "CalledProcessError"
      else if fadeOk = false then .error "CalledProcessError"
      else .ok output_file
    musicConcatPath := music_concat
    musicTempPath := music_temp
    loopsNeeded :=
      if musicDur < target_duration ∧ musicDur ≠ 0 then
        some (pyInt (target_duration / musicDur) + 1)
      else none
    fadeChain := bgFadeFilterChain target_duration
    fadeCap := some target_duration
    tempLeft :=
      if musicDur < target_duration then
        if musicDur = 0 then []
        else if loopOk = false then [music_concat]
        else if fadeOk = false then [music_temp]
        else if strContains music_temp "music_temp.mp3" then []
        else [music_temp]
      else []
    sourceRemoved :=
      if ¬ musicDur < target_duration ∧ fadeOk = true then
        strContains music_file "music_temp.mp3"
      else false }

/-- The as-is / loop / trim decision of the video reconciler. -/
inductive ReconcileDecision
  | asIs
  | loopIt
  | trimIt
  deriving DecidableEq

/-- Observable state of one call of `prepare_video_for_audio`. -/
structure PrepRun where
  decision : ReconcileDecision
  result : Except String String
  /-- the transcoder command built, when any invocation happens -/
  cmd : Option (List Arg)
  invocations : ℕ
  tempLeft : List String

/-- `prepare_video_for_audio` (src/utils/audio_utils.py lines 358-403).
Within 1.0s of the target the original file is returned unchanged
(lines 378-380); a shorter video delegates to `loop_video_to_duration`
(line 385); a longer one is trimmed with `-c copy` (lines 392-401).
The same `ffprobe` outcome is used for both probes of the same file. -/
def prepare_video_for_audio (videoProbe : ProbeOutcome) (video_file : String)
    (audio_duration : ℚ) (output_file : String) (ffmpegOk : Bool) : PrepRun :=
  let video_duration := get_video_duration videoProbe
  if |video_duration - audio_duration| < 1 then
    { decision := .asIs, result := .ok video_file, cmd := none,
      invocations := 0, tempLeft := [] }
  else if video_duration < audio_duration then
    let r := loop_video_to_duration videoProbe audio_duration output_file ffmpegOk
    { decision := .loopIt, result := r.result, cmd := r.cmd,
      invocations := r.invocations, tempLeft := r.tempLeft }
  else
    { decision := .trimIt
      result := if ffmpegOk then .ok output_file else .error "CalledProcessError"
      cmd := some (trimCmd video_file audio_duration output_file)
      invocations := 1
      tempLeft := [] }

/-! ## Helper lemmas -/

theorem pyInt_eq_floor {q : ℚ} (h : 0 ≤ q) : pyInt q = ⌊q⌋ := if_pos h

theorem strContains_pathJoin (a b : String) : strContains (pathJoin a b) b = true := by
  unfold pathJoin
  split
  · simp [strContains]
  · split
    · simp [strContains, String.toList]
      exact List.IsSuffix.isInfix ⟨a.data, by simp [String.data_append]⟩
    · simp [strContains, String.toList]
      exact List.IsSuffix.isInfix ⟨(a ++ "/").data, by simp [String.data_append]⟩

/-! ## Claim theorems -/

/-- C1: the duration probes do not surface failures as a distinguishable
error.  Evaluating the embedded code at failing probes (nonzero exit,
empty output, unparsable text) shows every failure is returned as the
plain number `0.0`, indistinguishable from a genuine zero duration; the
return type has no error channel at all. -/
theorem probe_failure_returns_silent_zero :
    get_audio_duration (.failure (.nonzeroExit 1)) = 0 ∧
    get_audio_duration (.failure .emptyOutput) = 0 ∧
    get_audio_duration (.failure (.unparsable "N/A")) = 0 ∧
    get_video_duration (.failure (.nonzeroExit 1)) = 0 ∧
    get_audio_duration (.failure .emptyOutput) = get_audio_duration (.ok 0) :=
  ⟨rfl, rfl, rfl, rfl, rfl⟩

/-- C2: the Loop and Trim commands of the video reconciler carry the
source audio into the output.  At a source video with one audio stream
(Loop case: probed 10s against target 25s; Trim case: probed 40s against
target 25s) the built commands contain no `-an` token, so under the
transcoder's stream-selection semantics the output keeps the source's
audio stream instead of having zero audio streams. -/
theorem reconciler_output_keeps_source_audio :
    (loop_video_to_duration (.ok 10) 25 "work/out.mp4" true).cmd
      = some (concatLoopCmd "work/concat_list.txt" 25 "work/out.mp4") ∧
    Arg.lit "-an" ∉ concatLoopCmd "work/concat_list.txt" 25 "work/out.mp4" ∧
    outputAudioStreams (concatLoopCmd "work/concat_list.txt" 25 "work/out.mp4") 1 = 1 ∧
    (prepare_video_for_audio (.ok 40) "work/v.mp4" 25 "work/out.mp4" true).cmd
      = some (trimCmd "work/v.mp4" 25 "work/out.mp4") ∧
    Arg.lit "-an" ∉ trimCmd "work/v.mp4" 25 "work/out.mp4" ∧
    outputAudioStreams (trimCmd "work/v.mp4" 25 "work/out.mp4") 1 = 1 := by
  have hp : pathJoin (dirname "work/out.mp4") "concat_list.txt" = "work/concat_list.txt" := by
    decide
  refine ⟨?_, by decide, by decide, ?_, by decide, by decide⟩
  · norm_num [loop_video_to_duration, get_video_duration, hp]
  · norm_num [prepare_video_for_audio, get_video_duration]

/-- C10: in `loop_video_to_duration` the probed duration is compared
against zero and the exception raised before the loop-count division:
the division site (`timesToLoop`) is reached only when the probed
duration is nonzero, and a probe failure (coerced to `0.0` by
`get_video_duration`) surfaces as the raised
`Could not get video duration` exception with the division not
executed. -/
theorem loop_zero_guard_before_division :
    ∀ (probe : ProbeOutcome) (t : ℚ) (out : String) (ok : Bool),
      ((loop_video_to_duration probe t out ok).timesToLoop.isSome →
        get_video_duration probe ≠ 0) ∧
      (get_video_duration probe = 0 →
        (loop_video_to_duration probe t out ok).result
            = .error "Could not get video duration" ∧
        (loop_video_to_duration probe t out ok).timesToLoop = none) := by
  intro probe t out ok
  constructor
  · intro h h0
    simp [loop_video_to_duration, h0] at h
  · intro h0
    simp [loop_video_to_duration, h0]

/-- Witness for C10: at a failed probe the guard raises, and at a
nonzero probed duration the division site is reached with a nonzero
divisor. -/
theorem loop_zero_guard_before_division_witness :
    (loop_video_to_duration (.failure .emptyOutput) 25 "work/out.mp4" true).result
        = .error "Could not get video duration" ∧
    get_video_duration (.ok 10) ≠ 0 :=
  ⟨((loop_zero_guard_before_division (.failure .emptyOutput) 25 "work/out.mp4" true).2 rfl).1,
    (loop_zero_guard_before_division (.ok 10) 25 "work/out.mp4" true).1
      (by norm_num [loop_video_to_duration, get_video_duration])⟩

/-- C3 counterexample: temp artifacts survive failure paths.  When the
single transcoder invocation of `loop_video_to_duration` exits nonzero,
the operation raises with the concat playlist still on disk; when the
final mixing invocation of `mix_voice_and_music` exits nonzero, the
padded voice and prepared music files are left behind. -/
theorem temp_artifacts_survive_failed_invocation :
    (loop_video_to_duration (.ok 10) 25 "work/out.mp4" false).result
        = .error "CalledProcessError" ∧
    (loop_video_to_duration (.ok 10) 25 "work/out.mp4" false).tempLeft
        = ["work/concat_list.txt"] ∧
    (mix_voice_and_music 6 30 "bg.mp3" "work/mix.mp3" 20 1 1 (3/20) true true true false).result
        = .error "CalledProcessError" ∧
    (mix_voice_and_music 6 30 "bg.mp3" "work/mix.mp3" 20 1 1 (3/20) true true true false).tempLeft
        = ["work/voice_padded.mp3", "work/music_prepared.mp3"] := by
  have hp : pathJoin (dirname "work/out.mp4") "concat_list.txt" = "work/concat_list.txt" := by
    decide
  refine ⟨?_, ?_, ?_, ?_⟩
  · norm_num [loop_video_to_duration, get_video_duration]
  · norm_num [loop_video_to_duration, get_video_duration, hp]
  · norm_num [mix_voice_and_music]
  · norm_num [mix_voice_and_music]
    decide

/-- C3 amended: every temp artifact is removed before the operation
returns on the success path (all invocations succeeding, and for the
mixer a nonzero probed music duration); on every failure path the
artifacts created before the failure survive past the operation: the
concat playlist when the loop invocation fails, and the already-created
padded voice file when the mixer's loop-count division crashes on a
zero probed music duration. -/
theorem temp_cleanup_success_path_only :
    (∀ (probe : ProbeOutcome) (t : ℚ) (out : String),
      (loop_video_to_duration probe t out true).tempLeft = []) ∧
    (∀ (vD mD : ℚ) (bg out : String) (T dl vv mv : ℚ), mD ≠ 0 →
      (mix_voice_and_music vD mD bg out T dl vv mv true true true true).tempLeft = []) ∧
    (∀ (vD : ℚ) (bg out : String) (T dl vv mv : ℚ), 0 < T →
      (mix_voice_and_music vD 0 bg out T dl vv mv true true true true).result
          = .error "ZeroDivisionError" ∧
      (mix_voice_and_music vD 0 bg out T dl vv mv true true true true).tempLeft
          = [(mix_voice_and_music vD 0 bg out T dl vv mv true true true true).paddedVoicePath]) ∧
    (∀ (mD : ℚ) (mf out : String) (T : ℚ),
      (prepare_background_music mD mf out T true true).tempLeft = []) ∧
    (∀ (d t : ℚ) (out : String), d ≠ 0 →
      (loop_video_to_duration (.ok d) t out false).tempLeft
        = [pathJoin (dirname out) "concat_list.txt"]) := by
  refine ⟨?_, ?_, ?_, ?_, ?_⟩
  · intro probe t out
    simp [loop_video_to_duration]
  · intro vD mD bg out T dl vv mv hmD
    simp [mix_voice_and_music, hmD, strContains_pathJoin]
  · intro vD bg out T dl vv mv hT
    constructor
    · simp [mix_voice_and_music, hT]
    · simp [mix_voice_and_music, hT]
  · intro mD mf out T
    simp [prepare_background_music, strContains_pathJoin]
  · intro d t out hd
    simp [loop_video_to_duration, get_video_duration, hd]

/-- Witness for C3 amended: the concrete all-success mixer run with a
nonzero music duration removes its temp artifacts; a zero probed music
duration crashes the mixer's division and leaks the padded voice; a
concrete failed loop leaves its concat playlist behind. -/
theorem temp_cleanup_success_path_only_witness :
    (loop_video_to_duration (.ok 10) 25 "work/out.mp4" true).tempLeft = [] ∧
    ((30 : ℚ) ≠ 0 ∧
      (mix_voice_and_music 6 30 "bg.mp3" "work/mix.mp3" 20 1 1 (3/20)
        true true true true).tempLeft = []) ∧
    ((0 : ℚ) < 20 ∧
      (mix_voice_and_music 6 0 "bg.mp3" "work/mix.mp3" 20 1 1 (3/20)
        true true true true).result = .error "ZeroDivisionError") ∧
    ((10 : ℚ) ≠ 0 ∧
      (loop_video_to_duration (.ok 10) 25 "work/out.mp4" false).tempLeft
        = [pathJoin (dirname "work/out.mp4") "concat_list.txt"]) :=
  ⟨temp_cleanup_success_path_only.1 (.ok 10) 25 "work/out.mp4",
    ⟨by norm_num,
      temp_cleanup_success_path_only.2.1 6 30 "bg.mp3" "work/mix.mp3" 20 1 1 (3/20)
        (by norm_num)⟩,
    ⟨by norm_num,
      (temp_cleanup_success_path_only.2.2.1 6 "bg.mp3" "work/mix.mp3" 20 1 1 (3/20)
        (by norm_num)).1⟩,
    ⟨by norm_num,
      temp_cleanup_success_path_only.2.2.2.2 10 25 "work/out.mp4" (by norm_num)⟩⟩

/-- C4 counterexample: the mixing invocation applies volume filters to
both input streams (`volume=1.0` to the music, `volume={voice_volume}`
to the voice), and the voice-padding filter chain contains no volume
filter at all — so `voiceVolume` is applied at mix time, not folded
into the padding step. -/
theorem mixer_applies_volume_filters :
    (mix_voice_and_music 6 8 "bg.mp3" "work/mix.mp3" 20 1 (1/2) (3/20) true true true true).mixGraph
      = { musicChain := [.volume 1], voiceChain := [.volume (1/2)], amixDurationFirst := true } ∧
    (mix_voice_and_music 6 8 "bg.mp3" "work/mix.mp3" 20 1 (1/2) (3/20) true true true true).padChain
      = [.adelay 1000, .apadWholeDurMs 20000] := by
  constructor
  · rfl
  · show padFilterChain 1 20 = _
    simp [padFilterChain, pyInt]
    norm_num

/-- C4 amended: gain staging as the code actually performs it — the
padding chain carries no volume filter; `musicVolume` is applied once in
the music-preparation invocation; the mixing invocation applies a
redundant neutral `volume=1.0` to the music stream and applies
`voiceVolume` to the voice stream at mix time. -/
theorem gain_staging_in_code :
    ∀ (vD mD : ℚ) (bg out : String) (T dl vv mv : ℚ) (a b c d : Bool),
      (mix_voice_and_music vD mD bg out T dl vv mv a b c d).padChain
        = [.adelay (pyInt (dl * 1000)), .apadWholeDurMs (pyInt (T * 1000))] ∧
      (mix_voice_and_music vD mD bg out T dl vv mv a b c d).fadeChain
        = [.volume mv, .afadeOut (T - 3/2) (3/2)] ∧
      (mix_voice_and_music vD mD bg out T dl vv mv a b c d).mixGraph
        = { musicChain := [.volume 1], voiceChain := [.volume vv], amixDurationFirst := true } := by
  intro vD mD bg out T dl vv mv a b c d
  exact ⟨rfl, rfl, rfl⟩

/-- C5 counterexample: the padding command has no `-t` cap and
`apad=whole_dur` never truncates, so with voice duration 10s, delay 1s
and total 5s the output lasts 11s, exceeding the claimed exact total of
5s by far more than the 0.05s tolerance. -/
theorem pad_output_exceeds_total_without_cap :
    (pad_audio_with_silence 10 "v.mp3" "work/p.mp3" 1 5 true).outDur = 11 ∧
    (5 : ℚ) + 1/20 < (pad_audio_with_silence 10 "v.mp3" "work/p.mp3" 1 5 true).outDur := by
  have h : (pad_audio_with_silence 10 "v.mp3" "work/p.mp3" 1 5 true).outDur = 11 := by
    simp [pad_audio_with_silence, capDur, chainDur, padFilterChain, filterDur, pyInt]
    norm_num
  exact ⟨h, by rw [h]; norm_num⟩

/-- C5 amended: the padded output has duration
`max(Dvoice + trunc(d*1000)/1000, trunc(T*1000)/1000)`: when
`d + Dvoice <= T` this is `T` within the tolerance (the only deviation
is the sub-millisecond `int()` truncation), but when `d + Dvoice > T`
the output is not truncated at `T` — no hard cap is applied. -/
theorem pad_duration_semantics (Dv d T : ℚ) (i o : String) (ok : Bool)
    (hd : 0 ≤ d) (hDv : 0 ≤ Dv) :
    (pad_audio_with_silence Dv i o d T ok).outDur
      = max (Dv + (pyInt (d * 1000) : ℚ) / 1000) ((pyInt (T * 1000) : ℚ) / 1000) ∧
    (d + Dv ≤ T →
      (pad_audio_with_silence Dv i o d T ok).outDur ≤ T ∧
      T - (pad_audio_with_silence Dv i o d T ok).outDur < 1/1000) := by
  have hout : (pad_audio_with_silence Dv i o d T ok).outDur
      = max (Dv + (pyInt (d * 1000) : ℚ) / 1000) ((pyInt (T * 1000) : ℚ) / 1000) := by
    simp [pad_audio_with_silence, capDur, chainDur, padFilterChain, filterDur]
  refine ⟨hout, ?_⟩
  intro h
  have hT : 0 ≤ T := le_trans (by linarith) h
  have hd1000 : (0 : ℚ) ≤ d * 1000 := by positivity
  have hT1000 : (0 : ℚ) ≤ T * 1000 := by positivity
  have hfd : (pyInt (d * 1000) : ℚ) ≤ d * 1000 := by
    rw [pyInt_eq_floor hd1000]
    exact Int.floor_le _
  have hfT1 : (pyInt (T * 1000) : ℚ) ≤ T * 1000 := by
    rw [pyInt_eq_floor hT1000]
    exact Int.floor_le _
  have hfT2 : T * 1000 < (pyInt (T * 1000) : ℚ) + 1 := by
    rw [pyInt_eq_floor hT1000]
    exact Int.lt_floor_add_one _
  rw [hout]
  constructor
  · apply max_le <;> linarith
  · have h2 : T - 1/1000 < (pyInt (T * 1000) : ℚ) / 1000 := by linarith
    have h3 := le_max_right (Dv + (pyInt (d * 1000) : ℚ) / 1000) ((pyInt (T * 1000) : ℚ) / 1000)
    linarith

/-- Witness for C5 amended: voice 6s, delay 1s, total 20s stays within
the tolerance. -/
theorem pad_duration_semantics_witness :
    (0 : ℚ) ≤ 1 ∧ (0 : ℚ) ≤ 6 ∧ (1 : ℚ) + 6 ≤ 20 ∧
    (pad_audio_with_silence 6 "v.mp3" "work/p.mp3" 1 20 true).outDur ≤ 20 ∧
    20 - (pad_audio_with_silence 6 "v.mp3" "work/p.mp3" 1 20 true).outDur < 1/1000 := by
  have h := (pad_duration_semantics 6 1 20 "v.mp3" "work/p.mp3" true
    (by norm_num) (by norm_num)).2 (by norm_num)
  exact ⟨by norm_num, by norm_num, by norm_num, h.1, h.2⟩

/-- C6 counterexample: with probed duration 10s and target 20s the code
writes `int(20/10) + 1 = 3` repetitions into the playlist, but
`ceil(20/10) = 2`; the claimed repetition count is wrong whenever the
source duration divides the target exactly. -/
theorem loop_count_exceeds_ceil_on_exact_divisor :
    (loop_video_to_duration (.ok 10) 20 "work/out.mp4" true).timesToLoop = some 3 ∧
    ⌈(20 : ℚ) / 10⌉ = 2 ∧ (3 : ℤ) ≠ 2 := by
  refine ⟨?_, by norm_num, by decide⟩
  norm_num [loop_video_to_duration, get_video_duration, pyInt]

/-- C6 amended: all three looping sites (video loop, music loop inside
the mixer, music loop of the background preparer) list
`floor(T/D) + 1` repetitions of the source — that is `ceil(T/D)` when
`T/D` is not an integer, and `ceil(T/D) + 1` when `D` exactly divides
`T`. -/
theorem loop_repetition_count (D T : ℚ) (hD : 0 < D) (hDT : D < T) :
    (loop_video_to_duration (.ok D) T "work/out.mp4" true).timesToLoop
        = some (⌊T / D⌋ + 1) ∧
    (mix_voice_and_music 6 D "bg.mp3" "work/mix.mp3" T 1 1 (3/20) true true true true).loopsNeeded
        = some (⌊T / D⌋ + 1) ∧
    (prepare_background_music D "m.mp3" "work/bg.mp3" T true true).loopsNeeded
        = some (⌊T / D⌋ + 1) ∧
    ((∀ k : ℤ, T / D ≠ (k : ℚ)) → ⌊T / D⌋ + 1 = ⌈T / D⌉) := by
  have hT0 : (0 : ℚ) < T := hD.trans hDT
  have hq : (0 : ℚ) ≤ T / D := div_nonneg hT0.le hD.le
  have hpy : pyInt (T / D) = ⌊T / D⌋ := pyInt_eq_floor hq
  refine ⟨?_, ?_, ?_, ?_⟩
  · simp [loop_video_to_duration, get_video_duration, hD.ne', hpy]
  · simp [mix_voice_and_music, hDT, hD.ne', hpy]
  · simp [prepare_background_music, hDT, hD.ne', hpy]
  · intro hk
    have h1 : ⌈T / D⌉ ≤ ⌊T / D⌋ + 1 := Int.ceil_le_floor_add_one _
    have h2 : ⌊T / D⌋ < ⌈T / D⌉ := by
      by_contra hle
      push_neg at hle
      have hc : T / D ≤ (⌊T / D⌋ : ℚ) := le_trans (Int.le_ceil _) (by exact_mod_cast hle)
      have hf : (⌊T / D⌋ : ℚ) ≤ T / D := Int.floor_le _
      exact hk ⌊T / D⌋ (le_antisymm hc hf)
    omega

/-- Witness for C6 amended: probed 8s, target 20s gives
`floor(20/8) + 1 = 3` playlist entries, and since `20/8` is not an
integer this equals `ceil(20/8)`. -/
theorem loop_repetition_count_witness :
    (0 : ℚ) < 8 ∧ (8 : ℚ) < 20 ∧
    (loop_video_to_duration (.ok 8) 20 "work/out.mp4" true).timesToLoop
      = some (⌊(20 : ℚ) / 8⌋ + 1) ∧
    ⌊(20 : ℚ) / 8⌋ + 1 = ⌈(20 : ℚ) / 8⌉ := by
  have h := loop_repetition_count 8 20 (by norm_num) (by norm_num)
  refine ⟨by norm_num, by norm_num, h.1, h.2.2.2 ?_⟩
  intro k hk
  have h20 : (20 : ℚ) = k * 8 := by
    field_simp at hk
    linarith
  have h20z : (20 : ℤ) = k * 8 := by exact_mod_cast h20
  omega

/-- C7 counterexample: when the loop invocation exits nonzero,
`loop_video_to_duration` raises after exactly one transcoder invocation
— no second split-and-concatenate strategy is attempted, and the raised
error is the bare subprocess failure, not a `ReconciliationError`
carrying last-attempt diagnostics. -/
theorem reconciliation_has_no_fallback_strategy :
    (loop_video_to_duration (.ok 10) 25 "work/out.mp4" false).invocations = 1 ∧
    (loop_video_to_duration (.ok 10) 25 "work/out.mp4" false).result
      = .error "CalledProcessError" := by
  constructor <;> norm_num [loop_video_to_duration, get_video_duration]

/-- C7 amended: reconciliation of a too-short video attempts a single
concat-based loop strategy; every call performs at most one transcoder
invocation, and a nonzero exit of that invocation propagates
immediately as the raised subprocess error. -/
theorem single_loop_strategy (probe : ProbeOutcome) (t : ℚ) (out : String) (ok : Bool) :
    (loop_video_to_duration probe t out ok).invocations ≤ 1 ∧
    (ok = false → get_video_duration probe ≠ 0 →
      (loop_video_to_duration probe t out ok).result = .error "CalledProcessError") := by
  constructor
  · simp only [loop_video_to_duration]
    split <;> simp
  · intro hok h0
    simp [loop_video_to_duration, h0, hok]

/-- Witness for C7 amended: a concrete failed invocation at nonzero
probed duration raises the subprocess error. -/
theorem single_loop_strategy_witness :
    get_video_duration (.ok 10) ≠ 0 ∧
    (loop_video_to_duration (.ok 10) 25 "work/out.mp4" false).result
      = .error "CalledProcessError" :=
  ⟨by norm_num [get_video_duration],
    (single_loop_strategy (.ok 10) 25 "work/out.mp4" false).2 rfl
      (by norm_num [get_video_duration])⟩

/-- C8 counterexample: the fade start is computed as `T - 1.5` with no
clamping at zero — at `T = 1` the code builds `afade` with start
`1 - 1.5`, which differs from the claimed `max(T - 1.5, 0)`; moreover
the standalone `prepare_background_music` fade invocation applies no
`musicVolume` gain at all (its filter chain has only the fade). -/
theorem fade_start_not_clamped_and_bg_prep_gainless :
    (mix_voice_and_music 6 8 "bg.mp3" "work/mix.mp3" 1 1 1 (3/20) true true true true).fadeChain
      = [.volume (3/20), .afadeOut (1 - 3/2) (3/2)] ∧
    ((1 : ℚ) - 3/2) ≠ max ((1 : ℚ) - 3/2) 0 ∧
    (prepare_background_music 8 "m.mp3" "work/bg.mp3" 20 true true).fadeChain
      = [.afadeOut (20 - 3/2) (3/2)] := by
  refine ⟨rfl, by norm_num, rfl⟩

/-- C8 amended: the fade-out of 1.5s begins at `T - 1.5` without
clamping to zero; inside `mix_voice_and_music` the same invocation
applies `musicVolume` and caps at `T`, while the standalone
`prepare_background_music` applies the fade and the cap but no gain. -/
theorem fade_gain_and_cap_in_code :
    ∀ (vD mD : ℚ) (bg out mf bgOut : String) (T dl vv mv : ℚ) (a b c d e f : Bool),
      (mix_voice_and_music vD mD bg out T dl vv mv a b c d).fadeChain
        = [.volume mv, .afadeOut (T - 3/2) (3/2)] ∧
      (mix_voice_and_music vD mD bg out T dl vv mv a b c d).fadeCap = some T ∧
      (prepare_background_music mD mf bgOut T e f).fadeChain
        = [.afadeOut (T - 3/2) (3/2)] ∧
      (prepare_background_music mD mf bgOut T e f).fadeCap = some T := by
  intro vD mD bg out mf bgOut T dl vv mv a b c d e f
  exact ⟨rfl, rfl, rfl, rfl⟩

/-- C9: temp artifact names are fixed literals joined to the output
directory, not unique per invocation: two distinct invocations (with
different inputs, different targets and different output file names in
the same directory) produce identical temp artifact paths. -/
theorem fixed_temp_names_collide_across_invocations :
    (loop_video_to_duration (.ok 10) 25 "work/a.mp4" true).concatListPath
      = (loop_video_to_duration (.ok 9) 30 "work/b.mp4" true).concatListPath ∧
    ("work/a.mp4" : String) ≠ "work/b.mp4" ∧
    (mix_voice_and_music 6 30 "bg1.mp3" "work/a.mp3" 20 1 1 (3/20) true true true true).paddedVoicePath
      = (mix_voice_and_music 5 25 "bg2.mp3" "work/b.mp3" 18 1 1 (3/20) true true true true).paddedVoicePath ∧
    ("work/a.mp3" : String) ≠ "work/b.mp3" := by
  refine ⟨by decide, by decide, by decide, by decide⟩
